import Mathlib

/-!
Verification of the NYTimes pagination/aggregation client
(`src/code/nytimes/client_nytimes.py`) against its specification.

The Python source is shallowly embedded: each method of the `NYTimes` class
becomes a Lean function; external collaborators (HTTP transport, the tabular
library, the database driver) are modelled as explicit capability parameters
(oracles), matching the spec, which treats them as capability interfaces the
core calls, not logic it owns.  Python exceptions become `Except` values and
Python `None` becomes `Option.none`.
-/

namespace NYTimesClient

/-- Error values a run of the embedded client can surface.  `keyError` models a
Python `KeyError` on dict or environment lookup, `exception` a plain
`raise Exception(msg)` as in the fetchers, `persistenceError` a database-driver
failure.  `missingCredentialError` is the typed error that the taxonomy of the
specification prescribes for an absent credential; the Python source never
constructs it, which is exactly what the credential claim is about. -/
inductive PyError where
  | keyError (key : String)
  | exception (msg : String)
  | persistenceError
  | missingCredentialError
  deriving DecidableEq, Repr

/-! ## Credential handling (`NYTimes.__init__`, lines 11-16)

Python evaluates a default-parameter expression once, when the `def` inside the
class body is executed, i.e. when the module is imported — not at each
construction.  `os.environ[k]` raises `KeyError k` when the variable is
absent. -/

/-- Python `os.environ[key]`: raises `KeyError key` when absent. -/
def environLookup (env : String → Option String) (key : String) :
    Except PyError String :=
  match env key with
  | some v => .ok v
  | none => .error (.keyError key)

/-- The embedded `NYTimes` object: it stores only `self._api_key`. -/
structure NYTimes where
  _api_key : String
  deriving DecidableEq, Repr

/-- Executing the class body of `NYTimes` (module import time).  The default
expression `os.environ["NYTIMES_TECH_API_KEY"]` of `__init__` is evaluated
right here; on success the result is the constructor, a function from an
optional explicit `api_key` argument to the object. -/
def defineNYTimesClass (env : String → Option String) :
    Except PyError (Option String → NYTimes) :=
  (environLookup env "NYTIMES_TECH_API_KEY").map fun defaultKey =>
    fun api_key => ⟨api_key.getD defaultKey⟩

/-! ## Pagination arithmetic (`gather_all_machine_learning_articles`,
lines 105-109)

`total_pages = min(total_hits // 10 + (1 if total_hits % 10 else 0), 100)`,
after which the extra fetches are `range(1, total_pages)`; page 0 was already
fetched to obtain `total_hits`. -/

/-- Line 106-109 of the source, verbatim: integer division by the page size 10,
plus one when there is a remainder, clamped to 100. -/
def total_pages (total_hits : Nat) : Nat :=
  min (total_hits / 10 + (if total_hits % 10 = 0 then 0 else 1)) 100

/-- The page indices fetched concurrently after page 0:
Python `range(1, total_pages)`. -/
def extraPageIndices (total_hits : Nat) : List Nat :=
  List.range' 1 (total_pages total_hits - 1)

/-- How many pages one aggregation call requests in total: page 0 (always
fetched first, to read the hit count) plus the concurrently fetched tail. -/
def pagesRequested (total_hits : Nat) : Nat :=
  1 + (extraPageIndices total_hits).length

/-! ## The page fetchers (lines 19-89)

Both fetchers issue exactly one `GET`; the transport is modelled as an oracle
`respond : Nat → HttpResponse Body` giving the response the network would
deliver to the n-th attempt of this call.  The body type is opaque to the
client (Python is untyped; the fetchers never inspect the parsed body), so it
is a type parameter. -/

/-- One HTTP response as the transport capability delivers it: a status code
and the parsed body `response.json()` would produce. -/
structure HttpResponse (Body : Type) where
  status : Nat
  body : Body

/-- The archive URL built in lines 38-39: year, month and the credential are
interpolated into the f-string. -/
def archive_url (self : NYTimes) (month year : Nat) : String :=
  "https://api.nytimes.com/svc/archive/v1/" ++ toString year ++ "/" ++
    toString month ++ ".json?api-key=" ++ self._api_key

/-- `get_articles_from_specified_month` (lines 19-45): build the archive URL,
perform one `GET`; on a non-200 status raise
`Exception(f"GET -url- -status-")`, else return the parsed body. -/
def get_articles_from_specified_month (self : NYTimes) (month year : Nat)
    (respond : Nat → HttpResponse Body) : Except PyError Body :=
  let url : String := archive_url self month year
  let response := respond 0
  if response.status ≠ 200 then
    .error (.exception ("GET " ++ url ++ " " ++ toString response.status))
  else
    .ok response.body

/-- The fixed search keywords of `_fetch_machine_learning_articles`. -/
def QUERY_TERMS : List String :=
  ["machine learning", "artificial intelligence", "ai", "chatgpt"]

/-- `" OR ".join(quoted terms)` of lines 75-77. -/
def query_string : String :=
  String.intercalate " OR " (QUERY_TERMS.map fun term => "\"" ++ term ++ "\"")

/-- The search endpoint (line 65). -/
def SEARCH_BASE_URL : String :=
  "https://api.nytimes.com/svc/search/v2/articlesearch.json"

/-- The query parameters of lines 78-83, as the ordered key/value pairs handed
to the transport. -/
def searchQueryParams (self : NYTimes) (page : Nat) : List (String × String) :=
  [("q", query_string),
   ("fq", "pub_date:(2000-01-01T00:00:00Z TO *)"),
   ("api-key", self._api_key),
   ("page", toString page)]

/-- `_fetch_machine_learning_articles` (lines 48-89): one `GET` against the
search endpoint with the query of `searchQueryParams`; on non-200 raise
`Exception(f"GET -base url- -status-")` (the literal in line 88 interpolates
`BASE_URL`, without the query parameters), else return the parsed body.  The
transport oracle takes the attempt number and the parameters sent. -/
def fetch_machine_learning_articles (self : NYTimes) (page : Nat)
    (respond : Nat → List (String × String) → HttpResponse Body) :
    Except PyError Body :=
  let response := respond 0 (searchQueryParams self page)
  if response.status ≠ 200 then
    .error (.exception ("GET " ++ SEARCH_BASE_URL ++ " " ++
      toString response.status))
  else
    .ok response.body

/-! ## The aggregator (`gather_all_machine_learning_articles`, lines 92-123)

The parsed search body the aggregator reads is
`response.meta.hits` and `response.docs`; a well-formed page is modelled by
`SearchPage`.  `asyncio.gather` runs the page tasks concurrently: the event
loop completes them in some order (a permutation of the task indices) and
delivers each completion as an event carrying the task index and its outcome;
`gather` then either re-raises the first exception to complete, or returns the
successful results arranged by task index, not by completion time.  The
completion order is an explicit parameter so that theorems can quantify over
it. -/

/-- The part of a parsed search response the aggregator uses:
`body["response"]["meta"]["hits"]` and `body["response"]["docs"]`.  Documents
are opaque to the aggregator, hence a type parameter. -/
structure SearchPage (Doc : Type) where
  hits : Nat
  docs : List Doc
  deriving DecidableEq, Repr

/-- The completion events of a set of concurrently running tasks: the outcome
of task `i` is `tasks i`, and the events arrive in the order given by
`order`. -/
def completionEvents (tasks : Nat → Except PyError α) (order : List Nat) :
    List (Nat × Except PyError α) :=
  order.map fun i => (i, tasks i)

/-- The exception a completion event delivers, when its task raised. -/
def eventError (e : Nat × Except PyError α) : Option PyError :=
  match e.2 with | .error err => some err | .ok _ => none

/-- The value task `i` delivered into its result slot, read off the completion
events. -/
def slotValue (events : List (Nat × Except PyError α)) (i : Nat) : Option α :=
  match events.lookup i with
  | some (.ok a) => some a
  | _ => none

/-- `await asyncio.gather(*tasks)` for the task list `indices` whose events
arrive as `events`: if any completed task raised, re-raise the first such
exception; otherwise return the results in task order (slot `i` of the output
is filled from the completion event of task `i`, regardless of when it
arrived). -/
def asyncGather (indices : List Nat)
    (events : List (Nat × Except PyError α)) : Except PyError (List α) :=
  match events.findSome? eventError with
  | some err => .error err
  | none => .ok (indices.filterMap (slotValue events))

/-- `gather_all_machine_learning_articles` (lines 92-123): fetch page 0, read
the hit count, compute `total_pages`, gather pages `1 .. total_pages - 1`
concurrently, and concatenate the docs of page 0 with the docs of each
gathered page in page order.  `fetch i` is the outcome `_fetch_machine_learning_articles(i)`
would produce, and `order` the order in which the event loop completes the
concurrent tasks. -/
def gather_all_machine_learning_articles
    (fetch : Nat → Except PyError (SearchPage Doc)) (order : List Nat) :
    Except PyError (List Doc) := do
  let first_page ← fetch 0
  let total_hits := first_page.hits
  let tasks := extraPageIndices total_hits
  let pages ← asyncGather tasks (completionEvents fetch order)
  return first_page.docs ++ (pages.map SearchPage.docs).flatten

/-- A non-success HTTP status: outside the 2xx class.  (The source tests
`status != 200`, which is implied by this.) -/
def nonSuccessStatus (s : Nat) : Prop := s < 200 ∨ 299 < s

instance (s : Nat) : Decidable (nonSuccessStatus s) := by
  unfold nonSuccessStatus; infer_instance

/-! ## Raw article records, as the materializers read them (lines 126-260)

An article is a raw JSON dict; the materializers access most fields with
`art[key]` (raising `KeyError` when absent) and exactly one —
`subsection_name` — with `art.get(key, None)`.  The embedding gives the
article record one `Option` field per key the code touches; `none` means the
key is absent from the dict.  Byline persons carry the two name fields the
flattener reads. -/

/-- One entry of `byline.person`. -/
structure Person where
  firstname : String
  lastname : String
  deriving DecidableEq, Repr

/-- The `byline` sub-dict; either of its keys may be absent. -/
structure RawByline where
  person : Option (List Person)
  organization : Option (List String)
  deriving DecidableEq, Repr

/-- The `headline` sub-dict; its `main` key may be absent. -/
structure RawHeadline where
  main : Option String
  deriving DecidableEq, Repr

/-- A raw article dict, restricted to the keys the materializers touch.
`none` models an absent key. -/
structure RawArticle where
  headline : Option RawHeadline
  abstract : Option String
  web_url : Option String
  snippet : Option String
  lead_paragraph : Option String
  pub_date : Option String
  document_type : Option String
  news_desk : Option String
  section_name : Option String
  subsection_name : Option String
  byline : Option RawByline
  type_of_material : Option String
  word_count : Option Nat
  deriving DecidableEq, Repr

/-- Python subscripting `d[key]`: `KeyError key` when the key is absent. -/
def require (key : String) (field : Option α) : Except PyError α :=
  match field with
  | some v => .ok v
  | none => .error (.keyError key)

/-- Python truthiness of a string: `s or None` yields `None` exactly when `s`
is empty. -/
def strOrNone (s : String) : Option String :=
  if s = "" then none else some s

/-- Lines 180-185 and 249-252: flatten `byline.person` to one display string,
`" ".join(firstname, a space, lastname for each person) or None`. -/
def flattenAuthors (persons : List Person) : Option String :=
  strOrNone (String.intercalate " "
    (persons.map fun person => person.firstname ++ " " ++ person.lastname))

/-- Lines 186-189 and 253-254: `" ".join(orgs) or None if orgs else None` —
the conditional first tests the truthiness of the list, then that of the
joined string. -/
def flattenOrgs (orgs : List String) : Option String :=
  if orgs.isEmpty then none else strOrNone (String.intercalate " " orgs)

/-- One materialized row: the 14 values both materializers produce for one
article, in the shared column order. -/
structure Row where
  main_headline : String
  abstract : String
  web_url : String
  snippet : String
  lead_paragraph : String
  pub_date : String
  document_type : String
  news_desk : String
  section_name : String
  subsection_name : Option String
  author_list : Option String
  organization_list : Option String
  type_of_material : String
  word_count : Nat
  deriving DecidableEq, Repr

/-- The per-article field extraction of
`impute_article_info_into_dataframe` (lines 169-191): every field but
`subsection_name` is read with `art[key]` (so an absent key raises
`KeyError`); `subsection_name` uses `art.get(key, None)`. -/
def extractRow (art : RawArticle) : Except PyError Row := do
  let headline ← require "headline" art.headline
  let main_headline ← require "main" headline.main
  let abstract ← require "abstract" art.abstract
  let web_url ← require "web_url" art.web_url
  let snippet ← require "snippet" art.snippet
  let lead_paragraph ← require "lead_paragraph" art.lead_paragraph
  let pub_date ← require "pub_date" art.pub_date
  let document_type ← require "document_type" art.document_type
  let news_desk ← require "news_desk" art.news_desk
  let section_name ← require "section_name" art.section_name
  let subsection_name := art.subsection_name
  let byline ← require "byline" art.byline
  let author_list := flattenAuthors (← require "person" byline.person)
  let organization_list := flattenOrgs (← require "organization"
    byline.organization)
  let type_of_material ← require "type_of_material" art.type_of_material
  let word_count ← require "word_count" art.word_count
  return ⟨main_headline, abstract, web_url, snippet, lead_paragraph, pub_date,
    document_type, news_desk, section_name, subsection_name, author_list,
    organization_list, type_of_material, word_count⟩

/-- The column names of the `data` dict (lines 152-167), in order. -/
def articleColumns : List String :=
  ["main_headline", "abstract", "web_url", "snippet", "lead_paragraph",
   "pub_date", "document_type", "news_desk", "section_name",
   "subsection_name", "author_list", "organization_list", "type_of_material",
   "word_count"]

/-- Modelled from the spec: the tabular capability (the polars library is an
external collaborator, §1/§4.3) — a table is a fixed, ordered column set plus
rows. -/
structure DataFrame where
  columns : List String
  rows : List Row
  deriving DecidableEq, Repr

/-- Modelled from the spec: `existing.vstack(new)` of the tabular capability
appends the new rows after the existing rows; mismatched column sets fail with
`SchemaMismatchError` (§4.3). -/
def vstack (existing new_df : DataFrame) : Except PyError DataFrame :=
  if existing.columns = new_df.columns then
    .ok ⟨existing.columns, existing.rows ++ new_df.rows⟩
  else
    .error (.exception "SchemaMismatchError")

/-- `impute_article_info_into_dataframe` (lines 126-199): extract the 14
fields of every article into the column dict, build a new table from it, and
either return it or `vstack` it onto the supplied existing table. -/
def impute_article_info_into_dataframe (articles : List RawArticle)
    (existing_df : Option DataFrame) : Except PyError DataFrame := do
  let rows ← articles.mapM extractRow
  let new_df : DataFrame := ⟨articleColumns, rows⟩
  match existing_df with
  | some df => vstack df new_df
  | none => return new_df

/-! ## The database materializer
(`impute_article_info_into_database`, lines 202-260)

The asyncpg driver is an external collaborator; it is modelled by two oracles:
`connectOk` (whether `asyncpg.connect(**db_config)` succeeds) and `insertOk i`
(whether the i-th `conn.execute(insert_sql, ...)` succeeds).  A run records,
besides the Python return value, whether a connection was opened, whether it
was closed, and the rows inserted — the source closes the connection in
straight-line code after the loop, with no try/finally. -/

/-- Decidable equality of `Except` values, used to compare run outcomes. -/
instance {ε α : Type} [DecidableEq ε] [DecidableEq α] :
    DecidableEq (Except ε α) := fun
  | .error e, .error f =>
    if h : e = f then .isTrue (by rw [h])
    else .isFalse (fun hc => h (by injection hc))
  | .error _, .ok _ => .isFalse (fun hc => Except.noConfusion hc)
  | .ok _, .error _ => .isFalse (fun hc => Except.noConfusion hc)
  | .ok a, .ok b =>
    if h : a = b then .isTrue (by rw [h])
    else .isFalse (fun hc => h (by injection hc))

/-- Observable outcome of one `impute_article_info_into_database` call.
`result` is the Python return value: the function body has no `return`
statement, so a successful call returns `None`; `none` in the `.ok` payload is
that `None`. -/
structure DbRun where
  result : Except PyError (Option Nat)
  connectionOpened : Bool
  connectionClosed : Bool
  insertedRows : List Row
  deriving DecidableEq, Repr

/-- The per-article argument evaluation of lines 239-256: the same lookups and
byline flattening as the dataframe path, evaluated before the insert is
issued. -/
def databaseRow (art : RawArticle) : Except PyError Row := do
  let headline ← require "headline" art.headline
  let main_headline ← require "main" headline.main
  let abstract ← require "abstract" art.abstract
  let web_url ← require "web_url" art.web_url
  let snippet ← require "snippet" art.snippet
  let lead_paragraph ← require "lead_paragraph" art.lead_paragraph
  let pub_date ← require "pub_date" art.pub_date
  let document_type ← require "document_type" art.document_type
  let news_desk ← require "news_desk" art.news_desk
  let section_name ← require "section_name" art.section_name
  let subsection_name := art.subsection_name
  let byline ← require "byline" art.byline
  let author_list := flattenAuthors (← require "person" byline.person)
  let organization_list := flattenOrgs (← require "organization"
    byline.organization)
  let type_of_material ← require "type_of_material" art.type_of_material
  let word_count ← require "word_count" art.word_count
  return ⟨main_headline, abstract, web_url, snippet, lead_paragraph, pub_date,
    document_type, news_desk, section_name, subsection_name, author_list,
    organization_list, type_of_material, word_count⟩

/-- The insert loop of lines 236-257: one `conn.execute` per article, in input
order.  Returns the rows inserted so far and, when the loop aborts, the error
that escaped (a `KeyError` from argument evaluation or the driver failure
wrapped as `PersistenceError`). -/
def insertLoop (insertOk : Nat → Bool) :
    List RawArticle → Nat → List Row → List Row × Option PyError
  | [], _, inserted => (inserted, none)
  | art :: rest, i, inserted =>
    match databaseRow art with
    | .error e => (inserted, some e)
    | .ok row =>
      if insertOk i then insertLoop insertOk rest (i + 1) (inserted ++ [row])
      else (inserted, some .persistenceError)

/-- `impute_article_info_into_database` (lines 202-260): connect, insert each
article, then close.  The `await conn.close()` of line 260 is straight-line
code after the loop — nothing in the source re-establishes it when `connect`
or an insert raises. -/
def impute_article_info_into_database (articles : List RawArticle)
    (connectOk : Bool) (insertOk : Nat → Bool) : DbRun :=
  if connectOk then
    match insertLoop insertOk articles 0 [] with
    | (inserted, some e) =>
      ⟨.error e, true, false, inserted⟩
    | (inserted, none) =>
      ⟨.ok none, true, true, inserted⟩
  else
    ⟨.error .persistenceError, false, false, []⟩

/-- Whether the raw article lacks one of the keys the materializer reads with
plain subscripting — i.e. every key it touches except `subsection_name`,
including the nested `headline.main`, `byline.person` and
`byline.organization`. -/
def requiredFieldMissing (art : RawArticle) : Bool :=
  art.headline.isNone ||
  (match art.headline with | some h => h.main.isNone | none => false) ||
  art.abstract.isNone || art.web_url.isNone || art.snippet.isNone ||
  art.lead_paragraph.isNone || art.pub_date.isNone ||
  art.document_type.isNone || art.news_desk.isNone ||
  art.section_name.isNone || art.byline.isNone ||
  (match art.byline with
   | some bl => bl.person.isNone || bl.organization.isNone
   | none => false) ||
  art.type_of_material.isNone || art.word_count.isNone

/-- A fully populated raw article, used to exercise the materializers on
concrete input. -/
def sampleArticle : RawArticle :=
  ⟨some ⟨some "Headline"⟩, some "Abstract", some "https://nytimes.com/x",
   some "Snippet", some "Lead", some "2023-07-01", some "article",
   some "Tech", some "Technology", none,
   some ⟨some [⟨"Ada", "Lovelace"⟩], some []⟩, some "News", some 312⟩

/-- The row both materializers produce from `sampleArticle`. -/
def sampleRow : Row :=
  ⟨"Headline", "Abstract", "https://nytimes.com/x", "Snippet", "Lead",
   "2023-07-01", "article", "Tech", "Technology", none, some "Ada Lovelace",
   none, "News", 312⟩

/-- `sampleArticle` with the required `abstract` key removed. -/
def articleMissingAbstract : RawArticle :=
  ⟨some ⟨some "Headline"⟩, none, some "https://nytimes.com/x",
   some "Snippet", some "Lead", some "2023-07-01", some "article",
   some "Tech", some "Technology", none,
   some ⟨some [⟨"Ada", "Lovelace"⟩], some []⟩, some "News", some 312⟩

/-! ## Helper lemmas -/

/-- Looking a key up in an association list whose keys are pairwise distinct
finds exactly the value paired with that key. -/
theorem lookup_eq_some_of_nodup_keys {β : Type} (l : List (Nat × β)) (k : Nat)
    (v : β) (hnd : (l.map Prod.fst).Nodup) (hmem : (k, v) ∈ l) :
    l.lookup k = some v := by
  induction l with
  | nil => cases hmem
  | cons head tail ih =>
    obtain ⟨k₁, v₁⟩ := head
    simp only [List.map_cons, List.nodup_cons] at hnd
    rcases List.mem_cons.mp hmem with heq | htail
    · injection heq with h₁ h₂
      subst h₁; subst h₂
      simp [List.lookup]
    · have hk : k ≠ k₁ := by
        rintro rfl
        exact hnd.1 (List.mem_map.mpr ⟨(k, v), htail, rfl⟩)
      have hb : (k == k₁) = false := beq_eq_false_iff_ne.mpr hk
      simp only [List.lookup, hb]
      exact ih hnd.2 htail

/-- `filterMap` is a `map` when the function is pointwise `some` on the
list. -/
theorem filterMap_eq_map_on {α β : Type} (l : List α) (f : α → Option β)
    (g : α → β) (h : ∀ x ∈ l, f x = some (g x)) : l.filterMap f = l.map g := by
  rw [← List.filterMap_eq_map g]
  exact List.filterMap_congr h

/-- `findSome?` produces a value as soon as one element of the list maps to
`some`. -/
theorem findSome?_isSome_of_mem {α β : Type} (l : List α) (f : α → Option β)
    (x : α) (hx : x ∈ l) (b : β) (hfx : f x = some b) :
    ∃ c, l.findSome? f = some c := by
  cases h : l.findSome? f with
  | some c => exact ⟨c, rfl⟩
  | none =>
    rw [List.findSome?_eq_none_iff] at h
    rw [h x hx] at hfx
    cases hfx

/-! ## Claim theorems -/

/-- Claim C1: for every `total_hits ≥ 0` read from the response envelope of
the first page, the number of pages the aggregator requests (page 0 plus the
concurrently fetched tail) equals `max(1, ceil(total_hits / 10))` clamped to
the maximum of 100; in particular 0 hits give 1 page, 95 hits give 10 pages
and 1000 hits give 100 pages. -/
theorem pages_requested_eq_clamped_ceil (total_hits : Nat) :
    pagesRequested total_hits = min (max 1 ((total_hits + 9) / 10)) 100 ∧
    pagesRequested 0 = 1 ∧ pagesRequested 95 = 10 ∧
    pagesRequested 1000 = 100 := by
  refine ⟨?_, by decide, by decide, by decide⟩
  simp only [pagesRequested, extraPageIndices, total_pages, List.length_range']
  split <;> omega

/-- Claim C2: when every page fetch succeeds, the aggregate equals the
records of page 0 followed by the records of each later page in ascending
page-index order —
for every completion order of the concurrent fetches, since the result does
not depend on `order` at all. -/
theorem gather_preserves_page_order {Doc : Type}
    (fetch : Nat → SearchPage Doc) (order : List Nat)
    (hperm : order.Perm (extraPageIndices (fetch 0).hits)) :
    gather_all_machine_learning_articles (fun i => .ok (fetch i)) order =
      .ok ((fetch 0).docs ++
        (((extraPageIndices (fetch 0).hits).map fun i =>
          (fetch i).docs)).flatten) := by
  have hnone : (completionEvents (fun i => Except.ok (fetch i))
      order).findSome? eventError = none := by
    rw [List.findSome?_eq_none_iff]
    intro x hx
    simp only [completionEvents, List.mem_map] at hx
    obtain ⟨i, _, rfl⟩ := hx
    rfl
  have hslot : ∀ i ∈ extraPageIndices (fetch 0).hits,
      slotValue (completionEvents (fun j => Except.ok (fetch j)) order) i =
        some (fetch i) := by
    intro i hi
    have hlookup : (completionEvents (fun j => Except.ok (fetch j))
        order).lookup i = some (.ok (fetch i)) := by
      apply lookup_eq_some_of_nodup_keys
      · have hkeys : (completionEvents
            (fun j => (Except.ok (fetch j) : Except PyError (SearchPage Doc)))
            order).map Prod.fst = order := by
          simp [completionEvents, List.map_map, Function.comp_def]
        rw [hkeys]
        exact hperm.nodup_iff.mpr (List.nodup_range' _ _)
      · simp only [completionEvents, List.mem_map]
        exact ⟨i, hperm.mem_iff.mpr hi, rfl⟩
    simp [slotValue, hlookup]
  simp only [gather_all_machine_learning_articles, asyncGather, Bind.bind,
    Except.bind, hnone]
  rw [filterMap_eq_map_on _ _ fetch hslot]
  simp only [Pure.pure, Except.pure, List.map_map]
  rfl

/-- Claim C3: if the first page succeeds but any of the concurrently fetched
pages fails, the whole aggregation call fails — no partial aggregate is
returned. -/
theorem gather_fails_when_any_page_fails {Doc : Type}
    (fetch : Nat → Except PyError (SearchPage Doc)) (order : List Nat)
    (p0 : SearchPage Doc) (h0 : fetch 0 = .ok p0)
    (hperm : order.Perm (extraPageIndices p0.hits))
    (i : Nat) (hi : i ∈ extraPageIndices p0.hits)
    (e : PyError) (hfail : fetch i = .error e) :
    ∃ err, gather_all_machine_learning_articles fetch order =
      .error err := by
  have hmem : (i, fetch i) ∈ completionEvents fetch order := by
    simp only [completionEvents, List.mem_map]
    exact ⟨i, hperm.mem_iff.mpr hi, rfl⟩
  obtain ⟨c, hc⟩ := findSome?_isSome_of_mem
    (completionEvents fetch order) eventError (i, fetch i) hmem
    e (by simp [eventError, hfail])
  refine ⟨c, ?_⟩
  simp only [gather_all_machine_learning_articles, h0, asyncGather,
    Bind.bind, Except.bind, hc]

/-- Witness for C2: 25 hits give pages [1, 2] beyond page 0; with completion
order [2, 1] (page 2 finishes first) the aggregate is still the records of
page 0, then those of page 1, then those of page 2. -/
theorem gather_preserves_page_order_witness :
    ([2, 1].Perm (extraPageIndices (25 : Nat))) ∧
    gather_all_machine_learning_articles
      (fun i => Except.ok (⟨25, [i]⟩ : SearchPage Nat)) [2, 1] =
      .ok [0, 1, 2] :=
  ⟨by decide,
    (gather_preserves_page_order (fun i => (⟨25, [i]⟩ : SearchPage Nat))
      [2, 1] (by decide)).trans (by rfl)⟩

/-- Witness for C3: 95 hits give pages 1-9 beyond page 0; page 3 failing makes
the whole aggregation fail even though every other page succeeded. -/
theorem gather_fails_when_any_page_fails_witness :
    ∃ err, gather_all_machine_learning_articles
      (fun i => if i = 3 then Except.error PyError.persistenceError
        else Except.ok (⟨95, []⟩ : SearchPage Nat))
      [9, 8, 7, 6, 5, 4, 3, 2, 1] = .error err :=
  gather_fails_when_any_page_fails _ [9, 8, 7, 6, 5, 4, 3, 2, 1] ⟨95, []⟩
    rfl (by decide) 3 (by decide) .persistenceError rfl

/-- Claim C9: for both page fetchers, a non-success response status makes the
call fail with an exception whose message embeds the request URL and the
status code, and the result of a call depends only on the response to attempt
0 — exactly one attempt is made, no retry. -/
theorem fetch_non_success_raises {A B : Type} (self : NYTimes)
    (month year page : Nat)
    (respondA : Nat → HttpResponse A)
    (respondS : Nat → List (String × String) → HttpResponse B)
    (hA : nonSuccessStatus (respondA 0).status)
    (hS : nonSuccessStatus (respondS 0 (searchQueryParams self page)).status) :
    get_articles_from_specified_month self month year respondA =
      .error (.exception ("GET " ++ archive_url self month year ++ " " ++
        toString (respondA 0).status)) ∧
    fetch_machine_learning_articles self page respondS =
      .error (.exception ("GET " ++ SEARCH_BASE_URL ++ " " ++
        toString (respondS 0 (searchQueryParams self page)).status)) ∧
    (∀ respondA₂ : Nat → HttpResponse A, respondA₂ 0 = respondA 0 →
      get_articles_from_specified_month self month year respondA₂ =
        get_articles_from_specified_month self month year respondA) ∧
    (∀ respondS₂ : Nat → List (String × String) → HttpResponse B,
      respondS₂ 0 = respondS 0 →
      fetch_machine_learning_articles self page respondS₂ =
        fetch_machine_learning_articles self page respondS) := by
  have hA₂ : (respondA 0).status ≠ 200 := by
    rcases hA with h | h <;> omega
  have hS₂ : (respondS 0 (searchQueryParams self page)).status ≠ 200 := by
    rcases hS with h | h <;> omega
  refine ⟨?_, ?_, ?_, ?_⟩
  · unfold get_articles_from_specified_month
    rw [if_pos hA₂]
  · unfold fetch_machine_learning_articles
    rw [if_pos hS₂]
  · intro respondA₂ h
    unfold get_articles_from_specified_month
    rw [h]
  · intro respondS₂ h
    unfold fetch_machine_learning_articles
    rw [h]

/-- Witness for C9: a 500 on the archive endpoint and a 429 on the search
endpoint each raise the documented exception message. -/
theorem fetch_non_success_raises_witness :
    nonSuccessStatus 500 ∧ nonSuccessStatus 429 ∧
    get_articles_from_specified_month ⟨"key"⟩ 7 2023
      (fun _ => ⟨500, ()⟩) =
      .error (.exception
        "GET https://api.nytimes.com/svc/archive/v1/2023/7.json?api-key=key 500") ∧
    fetch_machine_learning_articles ⟨"key"⟩ 3 (fun _ _ => ⟨429, ()⟩) =
      .error (.exception
        "GET https://api.nytimes.com/svc/search/v2/articlesearch.json 429") := by
  refine ⟨by decide, by decide, ?_, ?_⟩
  · exact ((fetch_non_success_raises ⟨"key"⟩ 7 2023 3
      (fun _ => (⟨500, ()⟩ : HttpResponse Unit))
      (fun _ _ => (⟨429, ()⟩ : HttpResponse Unit))
      (by decide) (by decide)).1).trans (by rfl)
  · exact ((fetch_non_success_raises ⟨"key"⟩ 7 2023 3
      (fun _ => (⟨500, ()⟩ : HttpResponse Unit))
      (fun _ _ => (⟨429, ()⟩ : HttpResponse Unit))
      (by decide) (by decide)).2.1).trans (by rfl)

/-- Claim C4 counterexample: with the credential absent, what the code raises
is a `KeyError` — from evaluating the default-argument expression
`os.environ["NYTIMES_TECH_API_KEY"]` when the class definition executes at
module import — and that error is not the `MissingCredentialError` the claim
names. -/
theorem missing_credential_counterexample :
    defineNYTimesClass (fun _ => none) =
      .error (.keyError "NYTIMES_TECH_API_KEY") ∧
    PyError.keyError "NYTIMES_TECH_API_KEY" ≠ .missingCredentialError :=
  ⟨rfl, by decide⟩

/-- Claim C4 (amended): if the credential configuration value is absent, the
failure is immediate and pre-network — evaluating the class definition (at
module import, before any construction) fails with a `KeyError` naming the
variable — but it is a plain `KeyError`, not a typed `MissingCredentialError`,
and it precedes construction rather than occurring at it. -/
theorem missing_credential_fails_at_class_definition
    (env : String → Option String) (h : env "NYTIMES_TECH_API_KEY" = none) :
    defineNYTimesClass env = .error (.keyError "NYTIMES_TECH_API_KEY") := by
  unfold defineNYTimesClass environLookup
  rw [h]
  rfl

/-- Witness for the amended C4: an empty environment. -/
theorem missing_credential_fails_witness :
    ((fun _ => (none : Option String)) "NYTIMES_TECH_API_KEY" = none) ∧
    defineNYTimesClass (fun _ => none) =
      .error (.keyError "NYTIMES_TECH_API_KEY") :=
  ⟨rfl, missing_credential_fails_at_class_definition (fun _ => none) rfl⟩

/-- Claim C5: an article whose byline has an empty person list and an empty
organization list is mapped — by both the tabular and the database
materializer — to the absent marker `none` in `author_list` and
`organization_list`, and that marker is distinct from the `some " "` value an
article whose flattened byline is a single-space name produces. -/
theorem absent_byline_maps_to_absent_marker
    (hl ab wu sn lp pd dt nd se tm : String) (ss : Option String) (wc : Nat) :
    extractRow ⟨some ⟨some hl⟩, some ab, some wu, some sn, some lp, some pd,
        some dt, some nd, some se, ss, some ⟨some [], some []⟩, some tm,
        some wc⟩ =
      .ok ⟨hl, ab, wu, sn, lp, pd, dt, nd, se, ss, none, none, tm, wc⟩ ∧
    databaseRow ⟨some ⟨some hl⟩, some ab, some wu, some sn, some lp, some pd,
        some dt, some nd, some se, ss, some ⟨some [], some []⟩, some tm,
        some wc⟩ =
      .ok ⟨hl, ab, wu, sn, lp, pd, dt, nd, se, ss, none, none, tm, wc⟩ ∧
    extractRow ⟨some ⟨some hl⟩, some ab, some wu, some sn, some lp, some pd,
        some dt, some nd, some se, ss, some ⟨some [⟨"", ""⟩], some []⟩,
        some tm, some wc⟩ =
      .ok ⟨hl, ab, wu, sn, lp, pd, dt, nd, se, ss, some " ", none, tm, wc⟩ ∧
    databaseRow ⟨some ⟨some hl⟩, some ab, some wu, some sn, some lp, some pd,
        some dt, some nd, some se, ss, some ⟨some [⟨"", ""⟩], some []⟩,
        some tm, some wc⟩ =
      .ok ⟨hl, ab, wu, sn, lp, pd, dt, nd, se, ss, some " ", none, tm, wc⟩ ∧
    (some " " ≠ (none : Option String)) :=
  ⟨rfl, rfl, rfl, rfl, by decide⟩

/-- Claim C6: appending an empty sequence of articles to an existing table
returns the table unchanged — the result is the very same table, so in
particular the row count is identical. -/
theorem append_empty_returns_table_unchanged (df : DataFrame)
    (h : df.columns = articleColumns) :
    impute_article_info_into_dataframe [] (some df) = .ok df := by
  obtain ⟨cols, rows⟩ := df
  simp only at h
  subst h
  simp [impute_article_info_into_dataframe, vstack, Bind.bind, Except.bind,
    List.mapM, List.mapM.loop, Pure.pure, Except.pure]

/-- Witness for C6: a one-row table with the column set of the materializer is
returned unchanged by an empty append. -/
theorem append_empty_returns_table_unchanged_witness :
    ((⟨articleColumns, [sampleRow]⟩ : DataFrame).columns = articleColumns) ∧
    impute_article_info_into_dataframe [] (some ⟨articleColumns, [sampleRow]⟩)
      = .ok ⟨articleColumns, [sampleRow]⟩ :=
  ⟨rfl, append_empty_returns_table_unchanged ⟨articleColumns, [sampleRow]⟩ rfl⟩

/-- `extractRow` either succeeds, with a missing-field indicator `false` and
`subsection_name` passed through, or fails with a `KeyError`, with the
indicator `true`: exhaustive field-by-field analysis of the extraction
chain. -/
theorem extractRow_characterization (art : RawArticle) :
    (requiredFieldMissing art = true ∧
      ∃ k, extractRow art = .error (.keyError k)) ∨
    (requiredFieldMissing art = false ∧
      ∃ r, extractRow art = .ok r ∧
        r.subsection_name = art.subsection_name) := by
  obtain ⟨hlf, abf, wuf, snf, lpf, pdf, dtf, ndf, sef, ssf, blf, tmf, wcf⟩ :=
    art
  rcases hlf with _ | ⟨hmf⟩
  · exact .inl ⟨by simp [requiredFieldMissing], "headline", rfl⟩
  rcases hmf with _ | hmv
  · exact .inl ⟨by simp [requiredFieldMissing], "main", rfl⟩
  rcases abf with _ | abv
  · exact .inl ⟨by simp [requiredFieldMissing], "abstract", rfl⟩
  rcases wuf with _ | wuv
  · exact .inl ⟨by simp [requiredFieldMissing], "web_url", rfl⟩
  rcases snf with _ | snv
  · exact .inl ⟨by simp [requiredFieldMissing], "snippet", rfl⟩
  rcases lpf with _ | lpv
  · exact .inl ⟨by simp [requiredFieldMissing], "lead_paragraph", rfl⟩
  rcases pdf with _ | pdv
  · exact .inl ⟨by simp [requiredFieldMissing], "pub_date", rfl⟩
  rcases dtf with _ | dtv
  · exact .inl ⟨by simp [requiredFieldMissing], "document_type", rfl⟩
  rcases ndf with _ | ndv
  · exact .inl ⟨by simp [requiredFieldMissing], "news_desk", rfl⟩
  rcases sef with _ | sev
  · exact .inl ⟨by simp [requiredFieldMissing], "section_name", rfl⟩
  rcases blf with _ | ⟨bpf, bof⟩
  · exact .inl ⟨by simp [requiredFieldMissing], "byline", rfl⟩
  rcases bpf with _ | bpv
  · exact .inl ⟨by simp [requiredFieldMissing], "person", rfl⟩
  rcases bof with _ | bov
  · exact .inl ⟨by simp [requiredFieldMissing], "organization", rfl⟩
  rcases tmf with _ | tmv
  · exact .inl ⟨by simp [requiredFieldMissing], "type_of_material", rfl⟩
  rcases wcf with _ | wcv
  · exact .inl ⟨by simp [requiredFieldMissing], "word_count", rfl⟩
  exact .inr ⟨by simp [requiredFieldMissing],
    ⟨hmv, abv, wuv, snv, lpv, pdv, dtv, ndv, sev, ssf, flattenAuthors bpv,
     flattenOrgs bov, tmv, wcv⟩, rfl, rfl⟩

/-- A list of articles containing one whose extraction raises a `KeyError`
fails as a whole with a `KeyError` under `mapM extractRow`. -/
theorem mapM_extractRow_keyError (articles : List RawArticle)
    (art : RawArticle) (hmem : art ∈ articles)
    (hart : ∃ k, extractRow art = .error (.keyError k)) :
    ∃ k, articles.mapM extractRow = .error (.keyError k) := by
  induction articles with
  | nil => cases hmem
  | cons a rest ih =>
    rcases extractRow_characterization a with ⟨_, k, hk⟩ | ⟨_, r, hr, _⟩
    · exact ⟨k, by rw [List.mapM_cons, hk]; rfl⟩
    · rcases List.mem_cons.mp hmem with rfl | hmem₂
      · obtain ⟨k, hk⟩ := hart
        rw [hr] at hk
        cases hk
      · obtain ⟨k, hk⟩ := ih hmem₂
        refine ⟨k, ?_⟩
        have hk₂ : List.mapM.loop extractRow rest [] =
            .error (.keyError k) := hk
        rw [List.mapM_cons, hr]
        simp [Bind.bind, Except.bind, hk₂]

/-- Claim C10: in the tabular materializer, an article missing any required
key (everything but `subsection_name`) makes the extraction — and any
materializer call whose input contains the article — fail with a `KeyError`;
an article with all required keys succeeds even when `subsection_name` is
absent, mapping it through to the absent marker rather than failing. -/
theorem only_subsection_name_tolerated_absent (art : RawArticle) :
    (requiredFieldMissing art = true →
      (∃ k, extractRow art = .error (.keyError k)) ∧
      ∀ (articles : List RawArticle) (df : Option DataFrame),
        art ∈ articles →
        ∃ k, impute_article_info_into_dataframe articles df =
          .error (.keyError k)) ∧
    (requiredFieldMissing art = false →
      ∃ r, extractRow art = .ok r ∧
        r.subsection_name = art.subsection_name) := by
  rcases extractRow_characterization art with ⟨hm, hfail⟩ | ⟨hp, hok⟩
  · refine ⟨fun _ => ⟨hfail, fun articles df hmem => ?_⟩,
      fun hc => absurd (hm.symm.trans hc) (by decide)⟩
    obtain ⟨k, hk⟩ := mapM_extractRow_keyError articles art hmem hfail
    exact ⟨k, by
      have hk₂ : List.mapM.loop extractRow articles [] =
          .error (.keyError k) := hk
      simp [impute_article_info_into_dataframe, hk₂, Bind.bind, Except.bind]⟩
  · exact ⟨fun hc => absurd (hp.symm.trans hc) (by decide), fun _ => hok⟩

/-- Witness for C10: an article missing `abstract` fails row extraction and
the whole materializer call with a `KeyError`; the fully populated article —
whose `subsection_name` is absent — succeeds with the absent marker. -/
theorem only_subsection_name_tolerated_absent_witness :
    (requiredFieldMissing articleMissingAbstract = true) ∧
    (∃ k, extractRow articleMissingAbstract = .error (.keyError k)) ∧
    (∃ k, impute_article_info_into_dataframe [articleMissingAbstract] none =
      .error (.keyError k)) ∧
    (requiredFieldMissing sampleArticle = false) ∧
    (∃ r, extractRow sampleArticle = .ok r ∧
      r.subsection_name = sampleArticle.subsection_name) := by
  refine ⟨by decide, ?_, ?_, by decide, ?_⟩
  · exact ((only_subsection_name_tolerated_absent
      articleMissingAbstract).1 (by decide)).1
  · exact ((only_subsection_name_tolerated_absent
      articleMissingAbstract).1 (by decide)).2 [articleMissingAbstract] none
      (by simp)
  · exact (only_subsection_name_tolerated_absent sampleArticle).2 (by decide)

/-- When every insert succeeds and the arguments of every article evaluate,
the insert loop inserts the row of each article, in input order, after what was
already inserted. -/
theorem insertLoop_all_ok (insertOk : Nat → Bool)
    (hins : ∀ i, insertOk i = true) (articles : List RawArticle) :
    ∀ (rows : List Row) (i : Nat) (acc : List Row),
      articles.mapM databaseRow = .ok rows →
      insertLoop insertOk articles i acc = (acc ++ rows, none) := by
  induction articles with
  | nil =>
    intro rows i acc h
    simp only [List.mapM, List.mapM.loop, List.reverse_nil, Pure.pure,
      Except.pure, Except.ok.injEq] at h
    subst h
    simp [insertLoop]
  | cons a rest ih =>
    intro rows i acc h
    rw [List.mapM_cons] at h
    cases ha : databaseRow a with
    | error e =>
      rw [ha] at h
      simp [Bind.bind, Except.bind] at h
    | ok r =>
      rw [ha] at h
      simp only [Bind.bind, Except.bind] at h
      cases hrest : rest.mapM databaseRow with
      | error e =>
        rw [hrest] at h
        simp at h
      | ok rs =>
        rw [hrest] at h
        simp only [Pure.pure, Except.pure, Except.ok.injEq] at h
        subst h
        simp only [insertLoop, ha, hins i, if_true]
        rw [ih rs (i + 1) (acc ++ [r]) hrest]
        simp

/-- A successful `mapM databaseRow` yields one row per article. -/
theorem mapM_databaseRow_length (articles : List RawArticle) :
    ∀ rows, articles.mapM databaseRow = .ok rows →
      rows.length = articles.length := by
  induction articles with
  | nil =>
    intro rows h
    simp only [List.mapM, List.mapM.loop, List.reverse_nil, Pure.pure,
      Except.pure, Except.ok.injEq] at h
    subst h
    rfl
  | cons a rest ih =>
    intro rows h
    rw [List.mapM_cons] at h
    cases ha : databaseRow a with
    | error e =>
      rw [ha] at h
      simp [Bind.bind, Except.bind] at h
    | ok r =>
      rw [ha] at h
      simp only [Bind.bind, Except.bind] at h
      cases hrest : rest.mapM databaseRow with
      | error e =>
        rw [hrest] at h
        simp at h
      | ok rs =>
        rw [hrest] at h
        simp only [Pure.pure, Except.pure, Except.ok.injEq] at h
        subst h
        simp [ih rs hrest]

/-- Claim C7 counterexample: two well-formed articles, the second insert
fails — the connection was opened, the error propagates, one row was
inserted, and the connection is NOT closed: the close call after the loop is
skipped, so closing is not unconditional. -/
theorem connection_left_open_counterexample :
    (impute_article_info_into_database [sampleArticle, sampleArticle] true
      (fun i => i == 0)).connectionOpened = true ∧
    (impute_article_info_into_database [sampleArticle, sampleArticle] true
      (fun i => i == 0)).connectionClosed = false ∧
    (impute_article_info_into_database [sampleArticle, sampleArticle] true
      (fun i => i == 0)).result = .error .persistenceError ∧
    (impute_article_info_into_database [sampleArticle, sampleArticle] true
      (fun i => i == 0)).insertedRows = [sampleRow] := by
  exact ⟨rfl, by decide, by decide, by decide⟩

/-- Claim C7 (amended): the connection is closed exactly on the success path;
when the connect fails, or an insert fails mid-loop (the failure still
propagating to the caller), the close call after the loop is never reached
and the connection is left open. -/
theorem connection_closed_iff_success (articles : List RawArticle)
    (connectOk : Bool) (insertOk : Nat → Bool) :
    (impute_article_info_into_database articles connectOk
        insertOk).connectionClosed = true ↔
    (impute_article_info_into_database articles connectOk
        insertOk).result = .ok none := by
  unfold impute_article_info_into_database
  cases connectOk with
  | false => simp
  | true =>
    cases hl : insertLoop insertOk articles 0 [] with
    | mk inserted err =>
      cases err with
      | none => simp [hl]
      | some e => simp [hl]

/-- Claim C8 counterexample: on a successful call with one article, the
Python function returns `None` (it has no return statement), not the count of
rows written (which would be 1). -/
theorem persist_returns_none_counterexample :
    (impute_article_info_into_database [sampleArticle] true
      (fun _ => true)).result = .ok none ∧
    (Except.ok (none : Option Nat) ≠
      (.ok (some 1) : Except PyError (Option Nat))) :=
  ⟨by decide, by decide⟩

/-- Claim C8 (amended): a successful call issues exactly one single-row
insert per article record, in input order — the inserted rows are precisely
the rows of the articles, one per article — but the function returns `None`,
not a
row count. -/
theorem persist_inserts_each_record_in_order (articles : List RawArticle)
    (rows : List Row) (h : articles.mapM databaseRow = .ok rows) :
    (impute_article_info_into_database articles true
      (fun _ => true)).insertedRows = rows ∧
    (impute_article_info_into_database articles true
      (fun _ => true)).result = .ok none ∧
    rows.length = articles.length := by
  have hloop := insertLoop_all_ok (fun _ => true) (fun _ => rfl) articles
    rows 0 [] h
  refine ⟨?_, ?_, mapM_databaseRow_length articles rows h⟩ <;>
    simp [impute_article_info_into_database, hloop]

/-- Witness for the amended C8: one article, one insert, `None` returned. -/
theorem persist_inserts_each_record_in_order_witness :
    ([sampleArticle].mapM databaseRow = .ok [sampleRow]) ∧
    (impute_article_info_into_database [sampleArticle] true
      (fun _ => true)).insertedRows = [sampleRow] ∧
    (impute_article_info_into_database [sampleArticle] true
      (fun _ => true)).result = .ok none ∧
    ([sampleRow] : List Row).length = [sampleArticle].length := by
  have h : [sampleArticle].mapM databaseRow = .ok [sampleRow] := by decide
  obtain ⟨h₁, h₂, h₃⟩ :=
    persist_inserts_each_record_in_order [sampleArticle] [sampleRow] h
  exact ⟨h, h₁, h₂, h₃⟩

end NYTimesClient
